import Mathlib

/-!
Verification of the wrapperfs passthrough filesystem (src/wrapperfs.c and
src/wrapperfs.cpp) against its natural-language specification.

The two source files are shallowly embedded below.  Host paths and virtual
paths are modelled as lists of characters; every host system call is an
oracle parameter (a function from the arguments the dispatcher passes to an
outcome consisting of the call's return value and the error indicator it
leaves behind), so each dispatcher entry point becomes a pure function of
its inputs and of the host oracle.
-/

namespace Wrapperfs

/-- Paths are character sequences (C strings without their terminator). -/
abbrev Str := List Char

/-- `BUFSIZE` from src/wrapperfs.c line 31: the fixed stack-buffer size used
for every resolved path in the C variant. -/
def BUFSIZE : Nat := 1024

/-- Outcome of one host call: the value it returned and the error indicator
(`errno`) observed immediately after it. -/
structure HostOutcome where
  ret : Int
  errno : Int
deriving DecidableEq, Repr

/-- The `CALL_RETURN` macro shared by both variants (src/wrapperfs.c line 33,
src/wrapperfs.cpp line 42): `return (x) == -1 ? -errno : 0;`. -/
def CALL_RETURN (h : HostOutcome) : Int :=
  if h.ret = -1 then -h.errno else 0

/-- `wrapperfs_abspath` of the C variant (src/wrapperfs.c lines 64-70):
`snprintf(buffer, 1024, "%s%s", basedir, path)` writes at most 1023
characters of the concatenation and terminates the buffer, so the resolved
path is the concatenation truncated to its first `BUFSIZE - 1` characters. -/
def abspathC (basedir path : Str) : Str :=
  (basedir ++ path).take (BUFSIZE - 1)

/-- `wrapperfs_abspath` of the C++ variant (src/wrapperfs.cpp lines 49-51):
`string(options.basedir) + path`, the unbounded concatenation. -/
def abspathCpp (basedir path : Str) : Str :=
  basedir ++ path

/-- Resolution of the symlink *source* in the C variant
(src/wrapperfs.c lines 226-232): an absolute source is copied through by
`strncpy` (verbatim for sources shorter than the 1024-byte buffer; the model
keeps the first 1024 characters for longer ones), a relative source is built
by `snprintf(abs_path1, 1024, "%s/%s", basedir, path1)`, i.e. basedir, a
slash, and the source, truncated to 1023 characters. -/
def symlinkSrcC (basedir p1 : Str) : Str :=
  if p1.head? = some '/' then
    p1.take BUFSIZE
  else
    (basedir ++ '/' :: p1).take (BUFSIZE - 1)

/-- Resolution of the symlink *source* in the C++ variant
(src/wrapperfs.cpp lines 176-180): an absolute source is assigned verbatim,
a relative source goes through `wrapperfs_abspath`, i.e. plain concatenation
with no separator inserted. -/
def symlinkSrcCpp (basedir p1 : Str) : Str :=
  if p1.head? = some '/' then p1 else abspathCpp basedir p1

/-! ### Dispatcher entry points of the C variant (src/wrapperfs.c)

Each entry point resolves its virtual path(s) with `abspathC`, performs one
host call through the oracle, and translates the outcome with `CALL_RETURN`
(except `open`/`create`, which attach the descriptor, and `read`/`write`,
which forward the host return value raw). -/

/-- `wrapperfs_getattr` (src/wrapperfs.c lines 73-79): resolve, `stat`. -/
def getattrC (bd p : Str) (stat : Str → HostOutcome) : Int :=
  CALL_RETURN (stat (abspathC bd p))

/-- `wrapperfs_access` (src/wrapperfs.c lines 156-160): resolve, `access`. -/
def accessC (bd p : Str) (flag : Int) (acc : Str → Int → HostOutcome) : Int :=
  CALL_RETURN (acc (abspathC bd p) flag)

/-- `wrapperfs_chmod` (src/wrapperfs.c lines 163-167): resolve, `chmod`. -/
def chmodC (bd p : Str) (mode : Nat) (ch : Str → Nat → HostOutcome) : Int :=
  CALL_RETURN (ch (abspathC bd p) mode)

/-- `wrapperfs_chown` (src/wrapperfs.c lines 170-175): resolve, `chown`. -/
def chownC (bd p : Str) (owner grp : Nat) (ch : Str → Nat → Nat → HostOutcome) : Int :=
  CALL_RETURN (ch (abspathC bd p) owner grp)

/-- `wrapperfs_unlink` (src/wrapperfs.c lines 193-198): resolve, `unlink`. -/
def unlinkC (bd p : Str) (ul : Str → HostOutcome) : Int :=
  CALL_RETURN (ul (abspathC bd p))

/-- `wrapperfs_rmdir` (src/wrapperfs.c lines 254-258): resolve, `rmdir`. -/
def rmdirC (bd p : Str) (rm : Str → HostOutcome) : Int :=
  CALL_RETURN (rm (abspathC bd p))

/-- `wrapperfs_rename` (src/wrapperfs.c lines 201-207): resolve both paths,
`rename`. -/
def renameC (bd oldp newp : Str) (rn : Str → Str → HostOutcome) : Int :=
  CALL_RETURN (rn (abspathC bd oldp) (abspathC bd newp))

/-- `wrapperfs_link` (src/wrapperfs.c lines 210-216): resolve both paths,
`link`. -/
def linkC (bd p1 p2 : Str) (ln : Str → Str → HostOutcome) : Int :=
  CALL_RETURN (ln (abspathC bd p1) (abspathC bd p2))

/-- `wrapperfs_symlink` (src/wrapperfs.c lines 219-235): resolve the source
per the absolute/relative rule, resolve the destination normally, `symlink`. -/
def symlinkC (bd p1 p2 : Str) (sl : Str → Str → HostOutcome) : Int :=
  CALL_RETURN (sl (symlinkSrcC bd p1) (abspathC bd p2))

/-- `wrapperfs_truncate` (src/wrapperfs.c lines 238-243): resolve,
`truncate`. -/
def truncateC (bd p : Str) (len : Int) (tr : Str → Int → HostOutcome) : Int :=
  CALL_RETURN (tr (abspathC bd p) len)

/-- `wrapperfs_mkdir` (src/wrapperfs.c lines 246-251): resolve, `mkdir`. -/
def mkdirC (bd p : Str) (mode : Nat) (mk : Str → Nat → HostOutcome) : Int :=
  CALL_RETURN (mk (abspathC bd p) mode)

/-- `wrapperfs_release` (src/wrapperfs.c lines 134-137): `close` the stored
descriptor. -/
def releaseC (fh : Int) (cl : Int → HostOutcome) : Int :=
  CALL_RETURN (cl fh)

/-- A `struct timespec` value (seconds, nanoseconds). -/
structure Timespec where
  tv_sec : Int
  tv_nsec : Int
deriving DecidableEq, Repr

/-- A `struct timeval` value (seconds, microseconds). -/
structure Timeval where
  tv_sec : Int
  tv_usec : Int
deriving DecidableEq, Repr

/-- The timestamp conversion performed by `wrapperfs_utimens`
(src/wrapperfs.c lines 182-185, src/wrapperfs.cpp lines 146-149):
`times[i].tv_sec = tv[i].tv_sec; times[i].tv_usec = tv[i].tv_nsec / 1000;`.
C integer division truncates toward zero, which is `Int.tdiv`. -/
def toTimeval (t : Timespec) : Timeval :=
  ⟨t.tv_sec, Int.tdiv t.tv_nsec 1000⟩

/-- `wrapperfs_utimens` (src/wrapperfs.c lines 178-190): convert both
timestamps, resolve, one `utimes` host call with the converted pair. -/
def utimensC (bd p : Str) (tv : Timespec × Timespec)
    (ut : Str → Timeval × Timeval → HostOutcome) : Int :=
  CALL_RETURN (ut (abspathC bd p) (toTimeval tv.1, toTimeval tv.2))

/-- `wrapperfs_read` of the C variant (src/wrapperfs.c lines 140-145):
`return pread(fi->fh, buf, size, offset);` — the host return value is
forwarded raw, with no errno translation on failure. -/
def readC (pread : HostOutcome) : Int :=
  pread.ret

/-- `wrapperfs_write` of the C variant (src/wrapperfs.c lines 148-153):
`return pwrite(fi->fh, buf, size, offset);` — raw forwarding. -/
def writeC (pwrite : HostOutcome) : Int :=
  pwrite.ret

/-- `wrapperfs_read` of the C++ variant (src/wrapperfs.cpp lines 108-116):
on `pread` failure return `-errno`, otherwise the byte count. -/
def readCpp (pread : HostOutcome) : Int :=
  if pread.ret = -1 then -pread.errno else pread.ret

/-- `wrapperfs_write` of the C++ variant (src/wrapperfs.cpp lines 118-126):
on `pwrite` failure return `-errno`, otherwise the byte count. -/
def writeCpp (pwrite : HostOutcome) : Int :=
  if pwrite.ret = -1 then -pwrite.errno else pwrite.ret

/-- `wrapperfs_unlink` of the C++ variant (src/wrapperfs.cpp lines 153-156). -/
def unlinkCpp (bd p : Str) (ul : Str → HostOutcome) : Int :=
  CALL_RETURN (ul (abspathCpp bd p))

/-- `wrapperfs_symlink` of the C++ variant (src/wrapperfs.cpp lines
170-183). -/
def symlinkCpp (bd p1 p2 : Str) (sl : Str → Str → HostOutcome) : Int :=
  CALL_RETURN (sl (symlinkSrcCpp bd p1) (abspathCpp bd p2))

/-- The open-file context (`fuse_file_info`): holds the descriptor the
dispatcher attaches at open/create (`fi->fh`). -/
structure FileInfo where
  fh : Int
deriving DecidableEq, Repr

/-- `wrapperfs_create` of the C++ variant (src/wrapperfs.cpp lines 92-101):
`creat`; on failure return `-errno`, otherwise attach the descriptor to the
open-file context and return 0.  (The C variant, src/wrapperfs.c lines
122-131, is identical apart from path resolution.) -/
def createCpp (creat : HostOutcome) (fi : FileInfo) : Int × FileInfo :=
  if creat.ret = -1 then (-creat.errno, fi) else (0, ⟨creat.ret⟩)

/-- Result of `opendir` on the resolved path: failure with an errno, or a
stream of directory entry names. -/
inductive DirStream where
  | openFail (errno : Int)
  | entries (names : List Str)
deriving DecidableEq, Repr

/-- `wrapperfs_readdir` (src/wrapperfs.c lines 82-106, src/wrapperfs.cpp
lines 58-80): resolve, `opendir`; on failure return `-errno` having emitted
nothing; otherwise emit `"."` and `".."` into the entry sink, then every
entry the stream reports, close the stream and return 0.  The second
component of the result is the sequence of names passed to `filler`. -/
def readdirC (bd p : Str) (host : Str → DirStream) : Int × List Str :=
  match host (abspathC bd p) with
  | .openFail e => (-e, [])
  | .entries names => (0, ['.'] :: ['.', '.'] :: names)

/-- Result of running the startup logic: the process exit code, whether
`fuse_main` was invoked (the mount attempt), and whether a startup
diagnostic was printed to standard error. -/
structure StartupResult where
  exitCode : Int
  mounted : Bool
  diagnostic : Bool
deriving DecidableEq, Repr

/-- `main` (src/wrapperfs.c lines 338-371, src/wrapperfs.cpp lines 254-305):
if option parsing fails, exit with -1; if the base directory option is
missing, print a diagnostic and exit 1; if `access(basedir, F_OK)` fails,
print a diagnostic and exit 1; only otherwise call `fuse_main` and return
its result.  `parseOk` models the result of `fuse_opt_parse`, `accessOk` the
host access check, `fuseMainRet` the value `fuse_main` returns. -/
def mainStartup (parseOk : Bool) (basedir : Option Str) (accessOk : Str → Bool)
    (fuseMainRet : Int) : StartupResult :=
  if parseOk = false then ⟨-1, false, false⟩
  else
    match basedir with
    | none => ⟨1, false, true⟩
    | some b =>
      if accessOk b = false then ⟨1, false, true⟩
      else ⟨fuseMainRet, true, false⟩

/-! ### Host filesystem model for the round-trip property

The host filesystem is an external collaborator; per the spec its behavior
"is assumed POSIX-compliant and is not re-specified".  The following model
of its success paths is needed to state the create/write/read round trip.
File contents are byte sequences. -/

/-- Modelled from the spec: a successful host `creat` produces an empty
file (POSIX `creat` truncates to length 0). -/
def hostCreatFile : List Nat := []

/-- Modelled from the spec: a successful host positioned write of `data` at
`offset` keeps the bytes before `offset` (zero-filling any gap past the old
end), places `data`, and keeps the old bytes past the written region. -/
def hostPwriteFile (file data : List Nat) (offset : Nat) : List Nat :=
  file.take offset ++ List.replicate (offset - file.length) 0 ++ data
    ++ file.drop (offset + data.length)

/-- Modelled from the spec: a successful host positioned write returns the
number of bytes written. -/
def hostPwriteRet (data : List Nat) : Int :=
  data.length

/-- Modelled from the spec: a host positioned read of `size` bytes at
`offset` yields the bytes of the file from `offset` on, at most `size` of
them. -/
def hostPreadBuf (file : List Nat) (size offset : Nat) : List Nat :=
  (file.drop offset).take size

/-- Modelled from the spec: a successful host positioned read returns the
number of bytes placed in the buffer. -/
def hostPreadRet (file : List Nat) (size offset : Nat) : Int :=
  (hostPreadBuf file size offset).length

/-! ### Shared lemmas -/

/-- Characterization of the `CALL_RETURN` macro: negated errno on a host
return of -1, zero otherwise. -/
theorem call_return_spec (h : HostOutcome) :
    (h.ret = -1 → CALL_RETURN h = -h.errno) ∧ (h.ret ≠ -1 → CALL_RETURN h = 0) := by
  refine ⟨fun hr => ?_, fun hr => ?_⟩ <;> simp [CALL_RETURN, hr]

/-- The C resolver is the identity on concatenations of combined length at
most 1023. -/
theorem abspathC_of_short (bd p : Str) (h : bd.length + p.length ≤ 1023) :
    abspathC bd p = bd ++ p := by
  rw [abspathC]
  exact List.take_of_length_le (by simpa [BUFSIZE] using h)

/-! ### Claims -/

/-- C1, counterexample: for a 1024-character base directory and the empty
virtual path, the C variant's resolver does not return the literal
concatenation (it truncates to 1023 characters). -/
theorem resolve_literal_concat_cex :
    abspathC (List.replicate 1024 'a') [] ≠ List.replicate 1024 'a' ++ [] := by
  intro h
  have hlen := congrArg List.length h
  simp only [abspathC, BUFSIZE, List.append_nil, List.length_take,
    List.length_replicate] at hlen
  omega

/-- C1 (amended): the C++ variant's resolver returns exactly the literal
concatenation of base and virtual path for all inputs; the C variant's
resolver does so exactly when the combined length is at most 1023
characters, truncating beyond that. -/
theorem resolve_literal_concat (bd p : Str) :
    abspathCpp bd p = bd ++ p ∧
    (bd.length + p.length ≤ 1023 → abspathC bd p = bd ++ p) :=
  ⟨rfl, abspathC_of_short bd p⟩

/-- C1, witness at base "/srv/data" and path "/a/b.txt". -/
theorem resolve_literal_concat_witness :
    abspathCpp "/srv/data".toList "/a/b.txt".toList = "/srv/data/a/b.txt".toList ∧
    abspathC "/srv/data".toList "/a/b.txt".toList = "/srv/data/a/b.txt".toList :=
  ⟨(resolve_literal_concat "/srv/data".toList "/a/b.txt".toList).1,
   (resolve_literal_concat "/srv/data".toList "/a/b.txt".toList).2 (by decide)⟩

/-- C7: the C variant's `wrapperfs_abspath` yields the first
min(len(base)+len(path), 1023) characters of the concatenation, so whenever
the combined length exceeds 1023 every host call receives a silently
truncated path instead of the true concatenation. -/
theorem abspath_c_truncates (bd p : Str) :
    abspathC bd p = (bd ++ p).take 1023 ∧
    (abspathC bd p).length = min (bd.length + p.length) 1023 ∧
    (1023 < bd.length + p.length → abspathC bd p ≠ bd ++ p) := by
  refine ⟨rfl, ?_, fun h hc => ?_⟩
  · simp [abspathC, BUFSIZE]
    omega
  · have hlen := congrArg List.length hc
    simp [abspathC, BUFSIZE] at hlen
    omega

/-- C7, witness at base "/" and a 1023-character virtual path. -/
theorem abspath_c_truncates_witness :
    1023 < ("/".toList).length + (List.replicate 1023 'b').length ∧
    abspathC "/".toList (List.replicate 1023 'b') ≠ "/".toList ++ List.replicate 1023 'b' :=
  ⟨by rw [List.length_replicate]; decide,
   (abspath_c_truncates "/".toList (List.replicate 1023 'b')).2.2
     (by rw [List.length_replicate]; decide)⟩

/-- C2: with base "/srv/data", the C variant resolves the relative symlink
source "rel/target" to "/srv/data/rel/target" exactly as the claim states,
but the C++ variant resolves it to "/srv/datarel/target", omitting the '/'
separator; an absolute source "/outside/target" passes through unmodified in
both variants, and the destination is resolved as an ordinary virtual
path. -/
theorem symlink_source_divergence :
    symlinkSrcC "/srv/data".toList "rel/target".toList
      = "/srv/data/rel/target".toList ∧
    symlinkSrcCpp "/srv/data".toList "rel/target".toList
      = "/srv/datarel/target".toList ∧
    symlinkSrcCpp "/srv/data".toList "rel/target".toList
      ≠ "/srv/data/rel/target".toList ∧
    symlinkSrcC "/srv/data".toList "/outside/target".toList
      = "/outside/target".toList ∧
    symlinkSrcCpp "/srv/data".toList "/outside/target".toList
      = "/outside/target".toList ∧
    symlinkCpp "/srv/data".toList "rel/target".toList "/inside/link".toList
        (fun s d => if s = "/srv/data/rel/target".toList ∧
          d = "/srv/data/inside/link".toList then ⟨0, 0⟩ else ⟨-1, 22⟩)
      = -22 := by
  decide

/-- C3: on a failing positioned read or write (host returns -1 with the
error indicator at EBADF = 9), the C variant forwards the raw -1 instead of
the negated error code -9 required by the claim; the C++ variant performs
the required translation, and both variants return the byte count on
success. -/
theorem read_write_error_translation_divergence :
    readC ⟨-1, 9⟩ = -1 ∧ readC ⟨-1, 9⟩ ≠ -9 ∧
    writeC ⟨-1, 9⟩ = -1 ∧ writeC ⟨-1, 9⟩ ≠ -9 ∧
    readCpp ⟨-1, 9⟩ = -9 ∧ writeCpp ⟨-1, 9⟩ = -9 ∧
    readC ⟨5, 0⟩ = 5 ∧ readCpp ⟨5, 0⟩ = 5 ∧
    writeC ⟨5, 0⟩ = 5 ∧ writeCpp ⟨5, 0⟩ = 5 := by
  decide

/-- C6, counterexample: the two variants are not behaviorally equivalent —
on a failing read (errno EBADF = 9) the C variant returns -1 while the C++
variant returns -9, and for the relative symlink source "r" under base "/b"
the two variants pass different source strings to the host symlink call. -/
theorem variants_equivalence_cex :
    readC ⟨-1, 9⟩ ≠ readCpp ⟨-1, 9⟩ ∧
    symlinkSrcC "/b".toList "r".toList ≠ symlinkSrcCpp "/b".toList "r".toList := by
  decide

/-- C6 (amended): the two variants agree on the resolved path, and hence on
every CALL_RETURN verb's host call and result, whenever the combined path
length is at most 1023 characters (unlink shown on the result side), and
they agree on successful reads and writes; they differ (1) on failing reads
and writes with errno ≠ 1, where C returns the raw -1 and C++ the negated
errno, (2) on relative symlink sources, where C inserts a '/' separator and
C++ does not, and (3) on combined path lengths beyond 1023, where C
truncates and C++ does not. -/
theorem variants_equivalence (bd p : Str) :
    (bd.length + p.length ≤ 1023 → abspathC bd p = abspathCpp bd p) ∧
    (∀ ul, bd.length + p.length ≤ 1023 → unlinkC bd p ul = unlinkCpp bd p ul) ∧
    (∀ h : HostOutcome, h.ret ≠ -1 → readC h = readCpp h ∧ writeC h = writeCpp h) ∧
    (∀ h : HostOutcome, h.ret = -1 → h.errno ≠ 1 → readC h ≠ readCpp h) ∧
    (p.head? ≠ some '/' → bd.length + p.length + 1 ≤ 1023 →
      symlinkSrcC bd p = bd ++ '/' :: p ∧ symlinkSrcCpp bd p = bd ++ p ∧
      symlinkSrcC bd p ≠ symlinkSrcCpp bd p) ∧
    (1023 < bd.length + p.length → abspathC bd p ≠ abspathCpp bd p) := by
  refine ⟨fun h => abspathC_of_short bd p h,
    fun ul h => by rw [unlinkC, unlinkCpp, abspathC_of_short bd p h, abspathCpp],
    fun h hr => by simp [readC, readCpp, writeC, writeCpp, hr],
    fun h hr hne => by simp [readC, readCpp, hr]; omega,
    fun hh hl => ?_, fun h => ?_⟩
  · have hc : symlinkSrcC bd p = bd ++ '/' :: p := by
      rw [symlinkSrcC, if_neg hh]
      exact List.take_of_length_le (by simp [BUFSIZE]; omega)
    have hcpp : symlinkSrcCpp bd p = bd ++ p := by
      rw [symlinkSrcCpp, if_neg hh, abspathCpp]
    refine ⟨hc, hcpp, fun he => ?_⟩
    have hlen := congrArg List.length (hc ▸ hcpp ▸ he)
    simp at hlen
  · intro he
    have hlen := congrArg List.length he
    simp only [abspathC, abspathCpp, BUFSIZE, List.length_take,
      List.length_append] at hlen
    omega

/-- C6, witness of the amended equivalence at base "/b" and path "r". -/
theorem variants_equivalence_witness :
    abspathC "/b".toList "r".toList = abspathCpp "/b".toList "r".toList ∧
    symlinkSrcC "/b".toList "r".toList ≠ symlinkSrcCpp "/b".toList "r".toList :=
  ⟨(variants_equivalence "/b".toList "r".toList).1 (by decide),
   ((variants_equivalence "/b".toList "r".toList).2.2.2.2.1 (by decide)
     (by decide)).2.2⟩

/-- C4: every path-based verb (getattr, access, chmod, chown, utimens,
unlink, rmdir, rename, link, symlink, truncate, mkdir, release) returns the
negated error indicator of its single host call when that call returns -1,
and 0 otherwise; in particular unlink against a host failing with ENOENT
(= 2) returns -2. -/
theorem path_verbs_error_translation :
    (∀ bd p stat, ((stat (abspathC bd p)).ret = -1 →
        getattrC bd p stat = -(stat (abspathC bd p)).errno) ∧
      ((stat (abspathC bd p)).ret ≠ -1 → getattrC bd p stat = 0)) ∧
    (∀ bd p flag acc, ((acc (abspathC bd p) flag).ret = -1 →
        accessC bd p flag acc = -(acc (abspathC bd p) flag).errno) ∧
      ((acc (abspathC bd p) flag).ret ≠ -1 → accessC bd p flag acc = 0)) ∧
    (∀ bd p mode ch, ((ch (abspathC bd p) mode).ret = -1 →
        chmodC bd p mode ch = -(ch (abspathC bd p) mode).errno) ∧
      ((ch (abspathC bd p) mode).ret ≠ -1 → chmodC bd p mode ch = 0)) ∧
    (∀ bd p owner grp ch, ((ch (abspathC bd p) owner grp).ret = -1 →
        chownC bd p owner grp ch = -(ch (abspathC bd p) owner grp).errno) ∧
      ((ch (abspathC bd p) owner grp).ret ≠ -1 → chownC bd p owner grp ch = 0)) ∧
    (∀ bd p tv ut,
      ((ut (abspathC bd p) (toTimeval tv.1, toTimeval tv.2)).ret = -1 →
        utimensC bd p tv ut
          = -(ut (abspathC bd p) (toTimeval tv.1, toTimeval tv.2)).errno) ∧
      ((ut (abspathC bd p) (toTimeval tv.1, toTimeval tv.2)).ret ≠ -1 →
        utimensC bd p tv ut = 0)) ∧
    (∀ bd p ul, ((ul (abspathC bd p)).ret = -1 →
        unlinkC bd p ul = -(ul (abspathC bd p)).errno) ∧
      ((ul (abspathC bd p)).ret ≠ -1 → unlinkC bd p ul = 0)) ∧
    (∀ bd p rm, ((rm (abspathC bd p)).ret = -1 →
        rmdirC bd p rm = -(rm (abspathC bd p)).errno) ∧
      ((rm (abspathC bd p)).ret ≠ -1 → rmdirC bd p rm = 0)) ∧
    (∀ bd oldp newp rn,
      ((rn (abspathC bd oldp) (abspathC bd newp)).ret = -1 →
        renameC bd oldp newp rn
          = -(rn (abspathC bd oldp) (abspathC bd newp)).errno) ∧
      ((rn (abspathC bd oldp) (abspathC bd newp)).ret ≠ -1 →
        renameC bd oldp newp rn = 0)) ∧
    (∀ bd p1 p2 ln, ((ln (abspathC bd p1) (abspathC bd p2)).ret = -1 →
        linkC bd p1 p2 ln = -(ln (abspathC bd p1) (abspathC bd p2)).errno) ∧
      ((ln (abspathC bd p1) (abspathC bd p2)).ret ≠ -1 → linkC bd p1 p2 ln = 0)) ∧
    (∀ bd p1 p2 sl,
      ((sl (symlinkSrcC bd p1) (abspathC bd p2)).ret = -1 →
        symlinkC bd p1 p2 sl
          = -(sl (symlinkSrcC bd p1) (abspathC bd p2)).errno) ∧
      ((sl (symlinkSrcC bd p1) (abspathC bd p2)).ret ≠ -1 →
        symlinkC bd p1 p2 sl = 0)) ∧
    (∀ bd p len tr, ((tr (abspathC bd p) len).ret = -1 →
        truncateC bd p len tr = -(tr (abspathC bd p) len).errno) ∧
      ((tr (abspathC bd p) len).ret ≠ -1 → truncateC bd p len tr = 0)) ∧
    (∀ bd p mode mk, ((mk (abspathC bd p) mode).ret = -1 →
        mkdirC bd p mode mk = -(mk (abspathC bd p) mode).errno) ∧
      ((mk (abspathC bd p) mode).ret ≠ -1 → mkdirC bd p mode mk = 0)) ∧
    (∀ fh cl, ((cl fh).ret = -1 → releaseC fh cl = -(cl fh).errno) ∧
      ((cl fh).ret ≠ -1 → releaseC fh cl = 0)) ∧
    (∀ bd p ul, ul (abspathC bd p) = ⟨-1, 2⟩ → unlinkC bd p ul = -2) :=
  ⟨fun _ _ stat => call_return_spec _,
   fun _ _ _ acc => call_return_spec _,
   fun _ _ _ ch => call_return_spec _,
   fun _ _ _ _ ch => call_return_spec _,
   fun _ _ _ ut => call_return_spec _,
   fun _ _ ul => call_return_spec _,
   fun _ _ rm => call_return_spec _,
   fun _ _ _ rn => call_return_spec _,
   fun _ _ _ ln => call_return_spec _,
   fun _ _ _ sl => call_return_spec _,
   fun _ _ _ tr => call_return_spec _,
   fun _ _ _ mk => call_return_spec _,
   fun _ cl => call_return_spec _,
   fun bd p ul h => by rw [unlinkC, h]; rfl⟩

/-- C4, witness: unlink of "/x" under base "/b" against a host failing with
ENOENT (= 2) returns -2, and getattr against a succeeding host returns 0. -/
theorem path_verbs_error_translation_witness :
    unlinkC "/b".toList "/x".toList (fun _ => ⟨-1, 2⟩) = -2 ∧
    getattrC "/b".toList "/x".toList (fun _ => ⟨0, 0⟩) = 0 :=
  ⟨path_verbs_error_translation.2.2.2.2.2.2.2.2.2.2.2.2.2
      "/b".toList "/x".toList (fun _ => ⟨-1, 2⟩) rfl,
   (path_verbs_error_translation.1 "/b".toList "/x".toList
      (fun _ => ⟨0, 0⟩)).2 (by decide)⟩

/-- C5: when the directory stream opens, readdir emits '.' and '..' as the
first two names and then exactly the host-reported entries in order,
returning 0 once the stream is exhausted; when the stream cannot be opened
it returns the negated errno having emitted nothing; for a host directory
reporting exactly {"x.txt", "y"} the emitted names are exactly
{".", "..", "x.txt", "y"}, without duplicates. -/
theorem readdir_entries :
    (∀ bd p (host : Str → DirStream) names,
      host (abspathC bd p) = .entries names →
      readdirC bd p host = (0, ".".toList :: "..".toList :: names)) ∧
    (∀ bd p (host : Str → DirStream) e,
      host (abspathC bd p) = .openFail e → readdirC bd p host = (-e, [])) ∧
    (∀ bd p, readdirC bd p (fun _ => .entries ["x.txt".toList, "y".toList])
        = (0, [".".toList, "..".toList, "x.txt".toList, "y".toList]) ∧
      (readdirC bd p (fun _ => .entries ["x.txt".toList, "y".toList])).2.Nodup) :=
  ⟨fun bd p host names h => by rw [readdirC, h]; rfl,
   fun bd p host e h => by rw [readdirC, h],
   fun bd p => ⟨by rw [readdirC]; rfl, by rw [readdirC]; decide⟩⟩

/-- C5, witness: a stream reporting exactly "x.txt" and "y" yields the
emission sequence ".", "..", "x.txt", "y" with return value 0, and a stream
failing to open with EACCES (= 13) yields -13 with no emission. -/
theorem readdir_entries_witness :
    readdirC "/b".toList "/d".toList
        (fun _ => .entries ["x.txt".toList, "y".toList])
      = (0, [".".toList, "..".toList, "x.txt".toList, "y".toList]) ∧
    readdirC "/b".toList "/d".toList (fun _ => .openFail 13) = (-13, []) :=
  ⟨readdir_entries.1 "/b".toList "/d".toList _ ["x.txt".toList, "y".toList] rfl,
   readdir_entries.2.1 "/b".toList "/d".toList _ 13 rfl⟩

/-- C8: if create succeeds, the descriptor is attached to the open-file
context and 0 is returned; writing the N data bytes at offset 0 through the
dispatcher reports N bytes written; a positioned read of N bytes at offset 0
on the resulting file returns exactly the same N bytes, with the dispatcher
reporting N. -/
theorem create_write_read_roundtrip (creat : HostOutcome) (fi : FileInfo)
    (data : List Nat) (hc : creat.ret ≠ -1) :
    (createCpp creat fi).1 = 0 ∧
    (createCpp creat fi).2.fh = creat.ret ∧
    writeCpp ⟨hostPwriteRet data, 0⟩ = (data.length : Int) ∧
    hostPwriteFile hostCreatFile data 0 = data ∧
    hostPreadBuf (hostPwriteFile hostCreatFile data 0) data.length 0 = data ∧
    readCpp ⟨hostPreadRet (hostPwriteFile hostCreatFile data 0) data.length 0, 0⟩
      = (data.length : Int) := by
  have hfile : hostPwriteFile hostCreatFile data 0 = data := by
    simp [hostPwriteFile, hostCreatFile]
  have hbuf : hostPreadBuf data data.length 0 = data := by
    simp [hostPreadBuf]
  refine ⟨by simp [createCpp, hc], by simp [createCpp, hc], ?_, hfile,
    by rw [hfile, hbuf], ?_⟩
  · simp only [writeCpp, hostPwriteRet]
    rw [if_neg (by omega)]
  · simp only [readCpp, hostPreadRet, hfile, hbuf]
    rw [if_neg (by omega)]

/-- C8, witness: creating with descriptor 3 and writing the three bytes
7, 8, 9 at offset 0 stores exactly those bytes, and reading three bytes at
offset 0 returns them. -/
theorem create_write_read_roundtrip_witness :
    (createCpp ⟨3, 0⟩ ⟨0⟩).2.fh = 3 ∧
    hostPreadBuf (hostPwriteFile hostCreatFile [7, 8, 9] 0) 3 0 = [7, 8, 9] :=
  ⟨(create_write_read_roundtrip ⟨3, 0⟩ ⟨0⟩ [7, 8, 9] (by decide)).2.1,
   (create_write_read_roundtrip ⟨3, 0⟩ ⟨0⟩ [7, 8, 9] (by decide)).2.2.2.2.1⟩

/-- C9: with option parsing successful, a missing base directory option, or
a base directory failing the accessibility check, makes startup print a
diagnostic and exit with status 1 without mounting; `fuse_main` runs only
when parsing succeeded, the option is present and the directory is
accessible, and then its result is the process result with no startup
diagnostic. -/
theorem startup_rejects_bad_config (parseOk : Bool) (basedir : Option Str)
    (accessOk : Str → Bool) (r : Int) :
    (parseOk = true → basedir = none →
      mainStartup parseOk basedir accessOk r = ⟨1, false, true⟩) ∧
    (∀ b, parseOk = true → basedir = some b → accessOk b = false →
      mainStartup parseOk basedir accessOk r = ⟨1, false, true⟩) ∧
    ((mainStartup parseOk basedir accessOk r).mounted = true →
      parseOk = true ∧ ∃ b, basedir = some b ∧ accessOk b = true ∧
        mainStartup parseOk basedir accessOk r = ⟨r, true, false⟩) := by
  refine ⟨fun hp hb => by simp [mainStartup, hp, hb],
    fun b hp hb ha => by simp [mainStartup, hp, hb, ha],
    fun hm => ?_⟩
  cases parseOk with
  | false => simp [mainStartup] at hm
  | true =>
    cases basedir with
    | none => simp [mainStartup] at hm
    | some b =>
      cases ha : accessOk b with
      | false => rw [mainStartup] at hm; simp [ha] at hm
      | true => exact ⟨rfl, b, rfl, ha, by simp [mainStartup, ha]⟩

/-- C9, witness: with parsing successful and the option missing, startup
exits 1 with a diagnostic and no mount. -/
theorem startup_rejects_bad_config_witness :
    mainStartup true none (fun _ => true) 0 = ⟨1, false, true⟩ :=
  (startup_rejects_bad_config true none (fun _ => true) 0).1 rfl rfl

/-- C10: the timestamp conversion keeps each seconds field unchanged and
sets each microseconds field to the nanoseconds field divided by 1000 with
truncating division (for nonnegative nanoseconds the discarded remainder
satisfies 0 ≤ nsec - 1000·usec < 1000), and the dispatcher applies the
converted pair to the resolved host path in a single `utimes` call whose
outcome it translates. -/
theorem utimens_conversion (ts : Timespec) :
    (toTimeval ts).tv_sec = ts.tv_sec ∧
    (toTimeval ts).tv_usec = Int.tdiv ts.tv_nsec 1000 ∧
    (0 ≤ ts.tv_nsec →
      1000 * (toTimeval ts).tv_usec ≤ ts.tv_nsec ∧
      ts.tv_nsec < 1000 * (toTimeval ts).tv_usec + 1000) ∧
    (∀ bd p tv2 ut, utimensC bd p (ts, tv2) ut
      = CALL_RETURN (ut (abspathC bd p) (toTimeval ts, toTimeval tv2))) := by
  refine ⟨rfl, rfl, fun h => ?_, fun bd p tv2 ut => rfl⟩
  obtain ⟨n, hn⟩ := Int.eq_ofNat_of_zero_le h
  have htd : (toTimeval ts).tv_usec = ((n / 1000 : Nat) : Int) := by
    rw [toTimeval, hn]
    rfl
  rw [htd, hn]
  omega

/-- C10, witness: 1999 nanoseconds convert to 1 microsecond, whose
remainder 999 is discarded. -/
theorem utimens_conversion_witness :
    1000 * (toTimeval ⟨5, 1999⟩).tv_usec ≤ (1999 : Int) ∧
    (1999 : Int) < 1000 * (toTimeval ⟨5, 1999⟩).tv_usec + 1000 :=
  (utimens_conversion ⟨5, 1999⟩).2.2.1 (by decide)

end Wrapperfs

